import Mathlib

/-!
Shallow embedding of the `LLMEngine` component of `sebastian-software/native-llm`
(`src/engine.ts` together with the catalog and type declarations in `src/types.ts`).

The engine is a thin orchestrator over the external `node-llama-cpp` runtime.  The
external runtime (llama acquisition, artifact resolution, model loading, context and
session creation, prompting) is modelled by an explicit environment `Env` that says
which external step succeeds and what the session's prompt call produces.  Every
engine operation is embedded as a pure function `Env → LLMEngine → ... →
LLMEngine × List Event × Except String α`: the returned list is the trace of
externally observable effects (calls into the runtime, history replacements, prompt
dispatches, emitted chunk handling and token callbacks), in the order the
TypeScript code performs them.

JavaScript numbers that only flow through the engine (temperature, topP,
repeatPenalty, durations) are embedded as rationals; the engine never computes with
them beyond `??`-defaulting, so no floating-point behaviour is involved in any
statement below.  JavaScript's `toLowerCase` is embedded as a per-character ASCII
lowering `strToLower` (all catalog keys and aliases are ASCII).
-/

/-- ASCII model of JavaScript's `String.prototype.toLowerCase` as used by the
engine constructor.  On ASCII strings it agrees with `toLowerCase` exactly
(only `A`-`Z` change, each to the corresponding `a`-`z`); `toLowerCase` also
applies Unicode mappings this model does not (e.g. U+212A KELVIN SIGN lowers
to `"k"`), so theorems quantifying over arbitrary input strings restrict
their domain to ASCII via `asciiOnly` where the distinction can matter. -/
def strToLower (s : String) : String := String.mk (s.data.map Char.toLower)

/-- The string consists solely of ASCII characters — the domain on which
`strToLower` coincides with JavaScript's `toLowerCase`. -/
def asciiOnly (s : String) : Bool := s.data.all (fun c => c.toNat < 128)

/-- The `thinkingMode` family tag of a catalog entry (`src/types.ts`):
`"qwen"` supports the `/no_think` suppression directive, `"deepseek"` always
reasons and needs a larger default token budget. -/
inductive ThinkingMode
  | qwen
  | deepseek
deriving DecidableEq, Repr

/-- Benchmark scores of a catalog entry. -/
structure Benchmarks where
  mmlu : Nat
  arena : Nat
deriving DecidableEq, Repr

/-- A catalog entry of `MODELS` in `src/types.ts` (and also the shape of the
fallback descriptor synthesized by `getModelInfo`).  Optional fields are absent
(`none`) on entries that do not declare them. -/
structure ModelInfo where
  name : String
  repo : String
  file : String
  parameters : String
  quantization : String
  contextLength : Nat
  languages : List String
  description : String
  requiresAuth : Option Bool := none
  thinkingMode : Option ThinkingMode := none
  benchmarks : Option Benchmarks := none
deriving DecidableEq, Repr

/-- The `MODELS` entry for `"gemma-3n-e2b"` (`src/types.ts`). -/
def entry_gemma_3n_e2b : ModelInfo :=
  { name := "Gemma 3n E2B", repo := "unsloth/gemma-3n-E2B-it-GGUF",
    file := "gemma-3n-E2B-it-Q4_K_M.gguf", parameters := "5B→2B",
    quantization := "Q4_K_M", contextLength := 32768,
    languages := ["en", "de", "fr", "es", "it", "pt", "nl", "pl", "ru", "ja", "ko", "zh"],
    description := "Ultra-efficient edge model, ~2GB RAM",
    requiresAuth := some false, benchmarks := some ⟨64, 1250⟩ }

/-- The `MODELS` entry for `"gemma-3n-e4b"` (`src/types.ts`). -/
def entry_gemma_3n_e4b : ModelInfo :=
  { name := "Gemma 3n E4B", repo := "unsloth/gemma-3n-E4B-it-GGUF",
    file := "gemma-3n-E4B-it-Q4_K_M.gguf", parameters := "8B→4B",
    quantization := "Q4_K_M", contextLength := 32768,
    languages := ["en", "de", "fr", "es", "it", "pt", "nl", "pl", "ru", "ja", "ko", "zh"],
    description := "Best edge model, ~3GB RAM",
    requiresAuth := some false, benchmarks := some ⟨75, 1300⟩ }

/-- The `MODELS` entry for `"gemma-3-27b"` (`src/types.ts`). -/
def entry_gemma_3_27b : ModelInfo :=
  { name := "Gemma 3 27B", repo := "unsloth/gemma-3-27b-it-GGUF",
    file := "gemma-3-27b-it-Q4_K_M.gguf", parameters := "27B",
    quantization := "Q4_K_M", contextLength := 131072,
    languages := ["en", "de", "fr", "es", "it", "pt", "nl", "pl", "ru", "ja", "ko", "zh"],
    description := "Maximum quality, 128K context, ~18GB RAM",
    benchmarks := some ⟨77, 1338⟩ }

/-- The `MODELS` entry for `"gpt-oss-20b"` (`src/types.ts`). -/
def entry_gpt_oss_20b : ModelInfo :=
  { name := "GPT-OSS 20B", repo := "unsloth/gpt-oss-20b-GGUF",
    file := "gpt-oss-20b-Q4_K_M.gguf", parameters := "21B (3.6B active)",
    quantization := "Q4_K_M", contextLength := 131072, languages := ["en"],
    description := "OpenAI's open model, MoE, ~16GB RAM",
    benchmarks := some ⟨82, 1340⟩ }

/-- The `MODELS` entry for `"phi-4"` (`src/types.ts`). -/
def entry_phi_4 : ModelInfo :=
  { name := "Phi-4 14B", repo := "bartowski/phi-4-GGUF",
    file := "phi-4-Q4_K_M.gguf", parameters := "14B",
    quantization := "Q4_K_M", contextLength := 16384, languages := ["en"],
    description := "Microsoft's reasoning-focused, excellent for STEM",
    benchmarks := some ⟨84, 1320⟩ }

/-- The `MODELS` entry for `"qwen3-4b"` (`src/types.ts`). -/
def entry_qwen3_4b : ModelInfo :=
  { name := "Qwen3 4B", repo := "unsloth/Qwen3-4B-GGUF",
    file := "Qwen3-4B-Q4_K_M.gguf", parameters := "4B",
    quantization := "Q4_K_M", contextLength := 32768,
    languages := ["en", "zh", "de", "fr", "es", "pt", "it", "nl", "pl", "ru", "ja", "ko"],
    description := "Thinking mode, 100+ languages, ~3GB RAM",
    thinkingMode := some ThinkingMode.qwen, benchmarks := some ⟨76, 1300⟩ }

/-- The `MODELS` entry for `"qwen3-8b"` (`src/types.ts`). -/
def entry_qwen3_8b : ModelInfo :=
  { name := "Qwen3 8B", repo := "unsloth/Qwen3-8B-GGUF",
    file := "Qwen3-8B-Q4_K_M.gguf", parameters := "8B",
    quantization := "Q4_K_M", contextLength := 32768,
    languages := ["en", "zh", "de", "fr", "es", "pt", "it", "nl", "pl", "ru", "ja", "ko"],
    description := "Thinking mode, excellent multilingual, ~5GB RAM",
    thinkingMode := some ThinkingMode.qwen, benchmarks := some ⟨81, 1350⟩ }

/-- The `MODELS` entry for `"qwen3-14b"` (`src/types.ts`). -/
def entry_qwen3_14b : ModelInfo :=
  { name := "Qwen3 14B", repo := "unsloth/Qwen3-14B-GGUF",
    file := "Qwen3-14B-Q4_K_M.gguf", parameters := "14B",
    quantization := "Q4_K_M", contextLength := 32768,
    languages := ["en", "zh", "de", "fr", "es", "pt", "it", "nl", "pl", "ru", "ja", "ko"],
    description := "Thinking mode, top multilingual, ~9GB RAM",
    thinkingMode := some ThinkingMode.qwen, benchmarks := some ⟨84, 1380⟩ }

/-- The `MODELS` entry for `"qwen-2.5-coder-7b"` (`src/types.ts`). -/
def entry_qwen_2_5_coder_7b : ModelInfo :=
  { name := "Qwen 2.5 Coder 7B", repo := "bartowski/Qwen2.5-Coder-7B-Instruct-GGUF",
    file := "Qwen2.5-Coder-7B-Instruct-Q4_K_M.gguf", parameters := "7B",
    quantization := "Q4_K_M", contextLength := 131072, languages := ["en"],
    description := "Optimized for code generation",
    benchmarks := some ⟨66, 1250⟩ }

/-- The `MODELS` entry for `"deepseek-r1-7b"` (`src/types.ts`). -/
def entry_deepseek_r1_7b : ModelInfo :=
  { name := "DeepSeek R1 Distill 7B", repo := "bartowski/DeepSeek-R1-Distill-Qwen-7B-GGUF",
    file := "DeepSeek-R1-Distill-Qwen-7B-Q4_K_M.gguf", parameters := "7B",
    quantization := "Q4_K_M", contextLength := 131072, languages := ["en", "zh"],
    description := "Strong reasoning with chain-of-thought",
    thinkingMode := some ThinkingMode.deepseek, benchmarks := some ⟨72, 1300⟩ }

/-- The `MODELS` entry for `"deepseek-r1-14b"` (`src/types.ts`). -/
def entry_deepseek_r1_14b : ModelInfo :=
  { name := "DeepSeek R1 Distill 14B", repo := "bartowski/DeepSeek-R1-Distill-Qwen-14B-GGUF",
    file := "DeepSeek-R1-Distill-Qwen-14B-Q4_K_M.gguf", parameters := "14B",
    quantization := "Q4_K_M", contextLength := 131072, languages := ["en", "zh"],
    description := "Best reasoning model, shows thinking",
    thinkingMode := some ThinkingMode.deepseek, benchmarks := some ⟨79, 1350⟩ }

/-- The static `MODELS` catalog of `src/types.ts`, keyed by canonical model id.
`none` models the JavaScript `key in MODELS` test failing. -/
def MODELS (id : String) : Option ModelInfo :=
  if id = "gemma-3n-e2b" then some entry_gemma_3n_e2b
  else if id = "gemma-3n-e4b" then some entry_gemma_3n_e4b
  else if id = "gemma-3-27b" then some entry_gemma_3_27b
  else if id = "gpt-oss-20b" then some entry_gpt_oss_20b
  else if id = "phi-4" then some entry_phi_4
  else if id = "qwen3-4b" then some entry_qwen3_4b
  else if id = "qwen3-8b" then some entry_qwen3_8b
  else if id = "qwen3-14b" then some entry_qwen3_14b
  else if id = "qwen-2.5-coder-7b" then some entry_qwen_2_5_coder_7b
  else if id = "deepseek-r1-7b" then some entry_deepseek_r1_7b
  else if id = "deepseek-r1-14b" then some entry_deepseek_r1_14b
  else none

/-- The `MODEL_ALIASES` table of `src/types.ts`: short names to canonical ids,
as a finite map over the table's own keys.  The source consults the table with
the JavaScript `in` operator, which additionally reports the keys inherited
from `Object.prototype` (`"constructor"`, `"__proto__"`, `"toString"`, ...);
that full membership semantics, including what `MODEL_ALIASES[key]` then
yields for an inherited key, is modelled separately by `objectPrototypeKeys`,
`jsResolveModelId` and `jsGetModelInfo` below.  This restricted map is used
where the engine is applied to keys on which the two semantics agree. -/
def MODEL_ALIASES (key : String) : Option String :=
  if key = "gemma" then some "gemma-3n-e4b"
  else if key = "gemma-large" then some "gemma-3-27b"
  else if key = "gpt-oss" then some "gpt-oss-20b"
  else if key = "phi" then some "phi-4"
  else if key = "qwen" then some "qwen3-8b"
  else if key = "qwen3" then some "qwen3-8b"
  else if key = "qwen-coder" then some "qwen-2.5-coder-7b"
  else if key = "deepseek" then some "deepseek-r1-7b"
  else none

/-- Model-id resolution performed by the `LLMEngine` constructor
(`src/engine.ts`, constructor): lowercase the input; an alias resolves to its
target, a catalog key resolves to itself (lowercased), anything else is kept
verbatim and assumed to be a `.gguf` path. -/
def resolveModelId (model : String) : String :=
  let modelKey := strToLower model
  match MODEL_ALIASES modelKey with
  | some target => target
  | none => if (MODELS modelKey).isSome then modelKey else model

/-- `LLMEngine.getModelInfo` (`src/engine.ts`): catalog lookup with a synthesized
fallback descriptor for ids outside the catalog.  Expressed over the resolved
model id, which is what the engine instance stores. -/
def getModelInfoById (modelId : String) : ModelInfo :=
  match MODELS modelId with
  | some info => info
  | none =>
    { name := modelId
      repo := "custom"
      file := modelId
      parameters := "unknown"
      quantization := "unknown"
      contextLength := 4096
      languages := ["en"]
      description := "Custom model" }

/-- The property names the JavaScript `in` operator reports on a plain object
literal beyond its own keys: the members of `Object.prototype` (including the
`__proto__` accessor).  `MODELS` and `MODEL_ALIASES` are plain object
literals, so `key in MODELS` / `key in MODEL_ALIASES` is true for these names
even though they are not table entries. -/
def objectPrototypeKeys : List String :=
  ["constructor", "__proto__", "hasOwnProperty", "isPrototypeOf",
   "propertyIsEnumerable", "toLocaleString", "toString", "valueOf",
   "__defineGetter__", "__defineSetter__", "__lookupGetter__", "__lookupSetter__"]

/-- The JavaScript value stored in `this.modelId` by the constructor.  The
TypeScript types say `string`, but when the alias lookup hits an inherited
`Object.prototype` key, `MODEL_ALIASES[modelKey]` yields that inherited
member — the `Object` constructor function for `"constructor"`,
`Object.prototype` itself for the `"__proto__"` accessor — which is not a
string. -/
inductive JSModelId
  | str (s : String)
  | protoMember (name : String)
deriving DecidableEq, Repr

/-- Coercion of `this.modelId` to a property key, as performed by the
`this.modelId in MODELS` test in `getModelInfo`: a string is used as-is; a
non-string object is converted with `ToPropertyKey`/`ToString`
(`Object.prototype` renders as `"[object Object]"`, a built-in function such
as `Object.prototype.constructor` — the `Object` function — or
`Object.prototype.toString` renders as `"function <fnName>() \x7b [native
code] \x7d"`).  None of these rendered strings is a catalog key or an
inherited property name, which is all the engine's behaviour depends on. -/
def JSModelId.toPropertyKey : JSModelId → String
  | JSModelId.str s => s
  | JSModelId.protoMember name =>
      if name = "__proto__" then "[object Object]"
      else if name = "constructor" then "function Object() \x7b [native code] \x7d"
      else "function " ++ name ++ "() \x7b [native code] \x7d"

/-- Faithful model of the constructor's model-id resolution
(`src/engine.ts`, constructor), including the JavaScript `in` semantics:
`modelKey in MODEL_ALIASES` succeeds for the table's keys *and* for
`Object.prototype` property names, in which case `MODEL_ALIASES[modelKey]`
is the inherited member, not a table target.  (`strToLower` matches
JavaScript `toLowerCase` on ASCII input; see `asciiOnly`.) -/
def jsResolveModelId (model : String) : JSModelId :=
  let modelKey := strToLower model
  if (MODEL_ALIASES modelKey).isSome || objectPrototypeKeys.contains modelKey then
    match MODEL_ALIASES modelKey with
    | some target => JSModelId.str target
    | none => JSModelId.protoMember modelKey
  else if (MODELS modelKey).isSome || objectPrototypeKeys.contains modelKey then
    JSModelId.str modelKey
  else
    JSModelId.str model

/-- The fallback object `getModelInfo` synthesizes, with its `name` and
`file` fields holding `this.modelId` — which, per `JSModelId`, need not be a
string. -/
structure JSFallbackInfo where
  name : JSModelId
  repo : String
  file : JSModelId
  parameters : String
  quantization : String
  contextLength : Nat
  languages : List String
  description : String
deriving DecidableEq, Repr

/-- What `getModelInfo()` actually returns under JavaScript semantics: a
catalog descriptor (own `MODELS` key), an inherited `Object.prototype` member
(when `this.modelId in MODELS` succeeds only through the prototype chain, e.g.
`this.modelId = "toString"` — the returned value is that function, not a
descriptor), or the synthesized fallback object. -/
inductive JSModelInfo
  | catalogEntry (info : ModelInfo)
  | inheritedMember (memberName : String)
  | fallback (f : JSFallbackInfo)
deriving DecidableEq, Repr

/-- Faithful model of `LLMEngine.getModelInfo` (`src/engine.ts`), including
the JavaScript `in` semantics of `this.modelId in MODELS`. -/
def jsGetModelInfo (modelId : JSModelId) : JSModelInfo :=
  let key := modelId.toPropertyKey
  if (MODELS key).isSome || objectPrototypeKeys.contains key then
    match MODELS key with
    | some info => JSModelInfo.catalogEntry info
    | none => JSModelInfo.inheritedMember key
  else
    JSModelInfo.fallback
      { name := modelId
        repo := "custom"
        file := modelId
        parameters := "unknown"
        quantization := "unknown"
        contextLength := 4096
        languages := ["en"]
        description := "Custom model" }

set_option maxHeartbeats 2000000 in
/-- Every key of the `MODELS` catalog is already lowercase, so lowercasing
fixes it. -/
theorem MODELS_key_lower {s : String} {i : ModelInfo} (h : MODELS s = some i) :
    strToLower s = s := by
  unfold MODELS at h
  split_ifs at h <;> (subst_vars; decide)

set_option maxHeartbeats 2000000 in
/-- Every target of the `MODEL_ALIASES` table is a canonical catalog id that
resolves to itself. -/
theorem alias_target_resolves_self {a t : String} (h : MODEL_ALIASES a = some t) :
    resolveModelId t = t := by
  unfold MODEL_ALIASES at h
  split_ifs at h <;> (injection h with h; subst h; decide)

/-- Role of a chat message (`chat()` parameter type in `src/engine.ts`). -/
inductive Role
  | system
  | user
  | assistant
deriving DecidableEq, Repr

/-- A chat message as passed to `LLMEngine.chat`. -/
structure ChatMessage where
  role : Role
  content : String
deriving DecidableEq, Repr

/-- An entry of the session's native chat-history representation
(`node-llama-cpp`'s `ChatHistoryItem`, as built by `src/engine.ts`):
`{type: "system", text}`, `{type: "model", response: [..]}`, `{type: "user", text}`. -/
inductive HistEntry
  | system (text : String)
  | model (response : List String)
  | user (text : String)
deriving DecidableEq, Repr

/-- `GenerateOptions` of `src/types.ts`.  Optional JavaScript fields are `Option`s;
the numeric sampling fields are embedded as rationals. -/
structure GenerateOptions where
  prompt : String
  systemPrompt : Option String := none
  maxTokens : Option Nat := none
  temperature : Option ℚ := none
  topP : Option ℚ := none
  topK : Option Nat := none
  repeatPenalty : Option ℚ := none
  stop : Option (List String) := none
deriving DecidableEq, Repr

/-- The options accepted by `LLMEngine.chat`:
`Omit<GenerateOptions, "prompt" | "systemPrompt">`. -/
structure ChatOptions where
  maxTokens : Option Nat := none
  temperature : Option ℚ := none
  topP : Option ℚ := none
  topK : Option Nat := none
  repeatPenalty : Option ℚ := none
  stop : Option (List String) := none
deriving DecidableEq, Repr

/-- The options object `src/engine.ts` passes to `session.prompt(...)`:
the merged sampling parameters.  `repeatPenalty` holds the inner
`repeatPenalty.penalty` value; `stopOnAbortSignal` is `some true` when the field
is present (only `generate()` passes it) and `none` when absent. -/
structure SamplingParams where
  maxTokens : Nat
  temperature : ℚ
  topP : ℚ
  topK : Nat
  repeatPenalty : ℚ
  stopOnAbortSignal : Option Bool
deriving DecidableEq, Repr

/-- `finishReason` values of `GenerateResult` (`src/types.ts`). -/
inductive FinishReason
  | stop
  | length
  | error
deriving DecidableEq, Repr

/-- `GenerateResult` of `src/types.ts`.  `durationSeconds` and
`tokensPerSecond` are rationals (wall-clock time is supplied by the
environment, see `Env`). -/
structure GenerateResult where
  text : String
  tokenCount : Nat
  promptTokenCount : Nat
  durationSeconds : ℚ
  tokensPerSecond : ℚ
  finishReason : FinishReason
  model : String
deriving DecidableEq, Repr

/-- One externally observable effect of an engine operation, in program order:
calls into the `node-llama-cpp` runtime, session-history replacements, the
prompt dispatch with its merged parameters, the per-chunk token counting of the
`onTextChunk` handler, the invocation of a caller-supplied streaming callback,
and (instrumentation for the orchestration claims) entry into `generate()`. -/
inductive Event
  | getLlamaCall
  | resolveModelCall (uri : String)
  | loadModelCall (gpuLayers : Int)
  | createContextCall (contextSize : Option Nat)
  | createSessionCall
  | setChatHistoryCall (history : List HistEntry)
  | promptCall (prompt : String) (params : SamplingParams)
  | countChunk (chunk : String)
  | tokenCallback (chunk : String)
  | generateCall (options : GenerateOptions)
deriving DecidableEq, Repr

/-- `EngineOptions` of `src/types.ts`. -/
structure EngineOptions where
  model : String
  gpuLayers : Option Int := none
  contextSize : Option Nat := none
  huggingFaceToken : Option String := none
  enableThinking : Option Bool := none
deriving DecidableEq, Repr

/-- The mutable state of one `LLMEngine` instance (`src/engine.ts`): the
configuration fields fixed by the constructor and the four nullable handles.
The llama, model and context handles carry no data the engine reads, so they
are `Option Unit`; the session handle carries the chat history the session
currently holds (the engine mutates it via `setChatHistory`). -/
structure LLMEngine where
  modelId : String
  gpuLayers : Int
  contextSize : Option Nat
  hfToken : Option String
  enableThinking : Bool
  llama : Option Unit := none
  model : Option Unit := none
  context : Option Unit := none
  session : Option (List HistEntry) := none
deriving DecidableEq, Repr

/-- The `LLMEngine` constructor.  `envHFToken` models `process.env.HF_TOKEN`. -/
def LLMEngine.new (options : EngineOptions) (envHFToken : Option String) : LLMEngine :=
  { modelId := resolveModelId options.model
    gpuLayers := options.gpuLayers.getD (-1)
    contextSize := options.contextSize
    hfToken := match options.huggingFaceToken with
      | some t => some t
      | none => envHFToken
    enableThinking := options.enableThinking.getD false }

/-- `LLMEngine.getModelUri`: registry URI for catalog models, the raw id
otherwise. -/
def LLMEngine.getModelUri (e : LLMEngine) : String :=
  match MODELS e.modelId with
  | some info => "hf:" ++ info.repo ++ "/" ++ info.file
  | none => e.modelId

/-- `LLMEngine.getThinkingMode`: the catalog entry's family tag, if any. -/
def LLMEngine.getThinkingMode (e : LLMEngine) : Option ThinkingMode :=
  match MODELS e.modelId with
  | some info => info.thinkingMode
  | none => none

/-- `LLMEngine.preparePrompt`: prepend the `/no_think` directive for a
qwen-tagged model when thinking is disabled; otherwise return the prompt
unchanged. -/
def LLMEngine.preparePrompt (e : LLMEngine) (prompt : String) : String :=
  if e.getThinkingMode = some ThinkingMode.qwen ∧ e.enableThinking = false then
    "/no_think " ++ prompt
  else
    prompt

/-- `LLMEngine.getDefaultMaxTokens`: 512 for deepseek-tagged models (room for
reasoning tokens), 256 otherwise. -/
def LLMEngine.getDefaultMaxTokens (e : LLMEngine) : Nat :=
  if e.getThinkingMode = some ThinkingMode.deepseek then 512 else 256

/-- The `contextSize` the engine passes to `createContext`: `src/engine.ts`
guards with JavaScript truthiness (`if (this.contextSize)`), so a configured
value of `0` is not forwarded. -/
def LLMEngine.contextSizeArg (e : LLMEngine) : Option Nat :=
  match e.contextSize with
  | some n => if n = 0 then none else some n
  | none => none

/-- The external world (`node-llama-cpp` runtime, artifact resolution, wall
clock, and the model's generation behaviour).  The five Booleans say whether
the corresponding external call succeeds or throws; `response` is the text the
session's `prompt` call resolves to, `chunks` the text chunks its
`onTextChunk` handler is fed (in order), and `durationSeconds` the elapsed
wall-clock time the engine measures around the prompt call. -/
structure Env where
  getLlamaOk : Bool
  resolveOk : Bool
  loadOk : Bool
  contextOk : Bool
  sessionOk : Bool
  response : String
  chunks : List String
  durationSeconds : ℚ

/-- All five external initialization-relevant steps succeed. -/
def Env.allOk (env : Env) : Prop :=
  env.getLlamaOk = true ∧ env.resolveOk = true ∧ env.loadOk = true ∧
    env.contextOk = true ∧ env.sessionOk = true

instance (env : Env) : Decidable env.allOk := by
  unfold Env.allOk
  infer_instance

/-- `LLMEngine.initialize` (`src/engine.ts` lines 138-179).  Returns the
engine state after the call, the trace of external calls made, and the
outcome.  A failing external step leaves exactly the handles assigned so far:
`this.llama` is assigned as soon as `getLlama()` resolves, `this.model` as
soon as `loadModel` resolves, and so on — there is no rollback on failure. -/
def LLMEngine.initializeEngine (env : Env) (e : LLMEngine) :
    LLMEngine × List Event × Except String Unit :=
  if e.model.isSome then
    (e, [], Except.ok ())
  else if env.getLlamaOk = false then
    (e, [Event.getLlamaCall], Except.error "getLlama failed")
  else
    let e1 : LLMEngine := { e with llama := some () }
    if env.resolveOk = false then
      (e1, [Event.getLlamaCall, Event.resolveModelCall e.getModelUri],
       Except.error "resolveModelFile failed")
    else if env.loadOk = false then
      (e1, [Event.getLlamaCall, Event.resolveModelCall e.getModelUri,
            Event.loadModelCall e.gpuLayers],
       Except.error "loadModel failed")
    else
      let e2 : LLMEngine := { e1 with model := some () }
      if env.contextOk = false then
        (e2, [Event.getLlamaCall, Event.resolveModelCall e.getModelUri,
              Event.loadModelCall e.gpuLayers, Event.createContextCall e.contextSizeArg],
         Except.error "createContext failed")
      else
        let e3 : LLMEngine := { e2 with context := some () }
        if env.sessionOk = false then
          (e3, [Event.getLlamaCall, Event.resolveModelCall e.getModelUri,
                Event.loadModelCall e.gpuLayers, Event.createContextCall e.contextSizeArg,
                Event.createSessionCall],
           Except.error "getSequence failed")
        else
          ({ e3 with session := some [] },
           [Event.getLlamaCall, Event.resolveModelCall e.getModelUri,
            Event.loadModelCall e.gpuLayers, Event.createContextCall e.contextSizeArg,
            Event.createSessionCall],
           Except.ok ())

/-- The `if (!this.session || !this.context) await this.initialize()` preamble
shared by `generate`, `generateStreaming` and `chat`. -/
def LLMEngine.ensureInit (env : Env) (e : LLMEngine) :
    LLMEngine × List Event × Except String Unit :=
  if e.session.isSome && e.context.isSome then (e, [], Except.ok ())
  else e.initializeEngine env

/-- `LLMEngine.generate` (`src/engine.ts` lines 201-247).  The leading
`Event.generateCall` trace entry is instrumentation marking entry into this
method (used by the orchestration claims about `chat`). -/
def LLMEngine.generate (env : Env) (e : LLMEngine) (options : GenerateOptions) :
    LLMEngine × List Event × Except String GenerateResult :=
  match e.ensureInit env with
  | (e1, tr0, Except.error msg) =>
    (e1, Event.generateCall options :: tr0, Except.error msg)
  | (e1, tr0, Except.ok _) =>
    if e1.session.isSome && e1.context.isSome then
      let prompt := e1.preparePrompt options.prompt
      let (e2, tr1) :=
        match options.systemPrompt with
        | some sp =>
          ({ e1 with session := some [HistEntry.system sp] },
           [Event.setChatHistoryCall [HistEntry.system sp]])
        | none => (e1, ([] : List Event))
      let params : SamplingParams :=
        { maxTokens := options.maxTokens.getD e1.getDefaultMaxTokens
          temperature := options.temperature.getD (7/10)
          topP := options.topP.getD (9/10)
          topK := options.topK.getD 40
          repeatPenalty := options.repeatPenalty.getD (11/10)
          stopOnAbortSignal := some true }
      let generatedTokens := env.chunks.length
      (e2,
       Event.generateCall options :: tr0 ++ tr1 ++
         Event.promptCall prompt params :: env.chunks.map Event.countChunk,
       Except.ok
         { text := env.response
           tokenCount := generatedTokens
           promptTokenCount := 0
           durationSeconds := env.durationSeconds
           tokensPerSecond := (generatedTokens : ℚ) / env.durationSeconds
           finishReason := FinishReason.stop
           model := e2.modelId })
    else
      (e1, Event.generateCall options :: tr0, Except.error "Failed to initialize engine")

/-- `LLMEngine.generateStreaming` (`src/engine.ts` lines 267-315).  Differs
from `generate` in its `onTextChunk` handler (`generatedTokens++` then
`onToken(chunk)`, traced as `countChunk` followed by `tokenCallback`) and in
not passing `stopOnAbortSignal`. -/
def LLMEngine.generateStreaming (env : Env) (e : LLMEngine) (options : GenerateOptions) :
    LLMEngine × List Event × Except String GenerateResult :=
  match e.ensureInit env with
  | (e1, tr0, Except.error msg) => (e1, tr0, Except.error msg)
  | (e1, tr0, Except.ok _) =>
    if e1.session.isSome && e1.context.isSome then
      let prompt := e1.preparePrompt options.prompt
      let (e2, tr1) :=
        match options.systemPrompt with
        | some sp =>
          ({ e1 with session := some [HistEntry.system sp] },
           [Event.setChatHistoryCall [HistEntry.system sp]])
        | none => (e1, ([] : List Event))
      let params : SamplingParams :=
        { maxTokens := options.maxTokens.getD e1.getDefaultMaxTokens
          temperature := options.temperature.getD (7/10)
          topP := options.topP.getD (9/10)
          topK := options.topK.getD 40
          repeatPenalty := options.repeatPenalty.getD (11/10)
          stopOnAbortSignal := none }
      let generatedTokens := env.chunks.length
      (e2,
       tr0 ++ tr1 ++
         Event.promptCall prompt params ::
           env.chunks.flatMap (fun c => [Event.countChunk c, Event.tokenCallback c]),
       Except.ok
         { text := env.response
           tokenCount := generatedTokens
           promptTokenCount := 0
           durationSeconds := env.durationSeconds
           tokensPerSecond := (generatedTokens : ℚ) / env.durationSeconds
           finishReason := FinishReason.stop
           model := e2.modelId })
    else
      (e1, tr0, Except.error "Failed to initialize engine")

/-- The message conversion inside `LLMEngine.chat`: system role to a system
entry, assistant role to a model/response entry, user role to a user entry. -/
def convertMessage (msg : ChatMessage) : HistEntry :=
  match msg.role with
  | Role.system => HistEntry.system msg.content
  | Role.assistant => HistEntry.model [msg.content]
  | Role.user => HistEntry.user msg.content

/-- `LLMEngine.chat` (`src/engine.ts` lines 336-374): auto-initialize, convert
all messages, pop the last one, replace the session history with the remainder
when it is non-empty, then require the popped message to be a user message and
delegate it as the prompt of a `generate` call merging the caller's options. -/
def LLMEngine.chat (env : Env) (e : LLMEngine) (messages : List ChatMessage)
    (options : ChatOptions) : LLMEngine × List Event × Except String GenerateResult :=
  match e.ensureInit env with
  | (e1, tr0, Except.error msg) => (e1, tr0, Except.error msg)
  | (e1, tr0, Except.ok _) =>
    if e1.session.isSome && e1.context.isSome then
      let chatHistory := (messages.map convertMessage).dropLast
      let lastMessage := (messages.map convertMessage).getLast?
      let (e2, tr1) :=
        if 0 < chatHistory.length then
          ({ e1 with session := some chatHistory },
           [Event.setChatHistoryCall chatHistory])
        else (e1, ([] : List Event))
      match lastMessage with
      | some (HistEntry.user text) =>
        let (e3, tr2, res) := e2.generate env
          { prompt := text
            maxTokens := options.maxTokens
            temperature := options.temperature
            topP := options.topP
            topK := options.topK
            repeatPenalty := options.repeatPenalty
            stop := options.stop }
        (e3, tr0 ++ tr1 ++ tr2, res)
      | _ => (e2, tr0 ++ tr1, Except.error "Last message must be from user")
    else
      (e1, tr0, Except.error "Failed to initialize engine")

/-- Extract the dispatched prompt text of the first `promptCall` in a trace. -/
def promptOf (tr : List Event) : Option String :=
  tr.findSome? fun ev =>
    match ev with
    | Event.promptCall p _ => some p
    | _ => none

/-- Extract the dispatched parameters of the first `promptCall` in a trace. -/
def paramsOf (tr : List Event) : Option SamplingParams :=
  tr.findSome? fun ev =>
    match ev with
    | Event.promptCall _ q => some q
    | _ => none

/-- Recognize the instrumentation event marking entry into `generate`. -/
def Event.isGenerateCall : Event → Bool
  | Event.generateCall _ => true
  | _ => false

/-- Recognize a session-history replacement. -/
def Event.isSetChatHistory : Event → Bool
  | Event.setChatHistoryCall _ => true
  | _ => false

/-- Recognize the llama-runtime acquisition call. -/
def Event.isGetLlama : Event → Bool
  | Event.getLlamaCall => true
  | _ => false

/-- Recognize the model-load call. -/
def Event.isLoadModel : Event → Bool
  | Event.loadModelCall _ => true
  | _ => false

/-- Recognize the context-creation call. -/
def Event.isCreateContext : Event → Bool
  | Event.createContextCall _ => true
  | _ => false

/-- Recognize the session-creation call. -/
def Event.isCreateSession : Event → Bool
  | Event.createSessionCall => true
  | _ => false

/-- The engine state reached by a fully successful `initialize`. -/
def initializedOf (e : LLMEngine) : LLMEngine :=
  { e with llama := some (), model := some (), context := some (), session := some [] }

/-- The trace of one complete, successful initialization sequence. -/
def fullInitTrace (e : LLMEngine) : List Event :=
  [Event.getLlamaCall, Event.resolveModelCall e.getModelUri,
   Event.loadModelCall e.gpuLayers, Event.createContextCall e.contextSizeArg,
   Event.createSessionCall]

/-- The merged sampling parameters `generate` dispatches. -/
def expectedParams (e : LLMEngine) (options : GenerateOptions) : SamplingParams :=
  { maxTokens := options.maxTokens.getD e.getDefaultMaxTokens
    temperature := options.temperature.getD (7/10)
    topP := options.topP.getD (9/10)
    topK := options.topK.getD 40
    repeatPenalty := options.repeatPenalty.getD (11/10)
    stopOnAbortSignal := some true }

/-- The normalized result both generation entry points return. -/
def expectedResult (env : Env) (e : LLMEngine) : GenerateResult :=
  { text := env.response
    tokenCount := env.chunks.length
    promptTokenCount := 0
    durationSeconds := env.durationSeconds
    tokensPerSecond := (env.chunks.length : ℚ) / env.durationSeconds
    finishReason := FinishReason.stop
    model := e.modelId }

/-- `initialize` on an already-loaded engine is a pure no-op. -/
theorem initialize_noop (env : Env) (e : LLMEngine) (h : e.model.isSome = true) :
    e.initializeEngine env = (e, [], Except.ok ()) := by
  simp [LLMEngine.initializeEngine, h]

/-- A fully successful `initialize` on a not-yet-loaded engine: all four
handles get assigned and the five external calls happen once, in order. -/
theorem initialize_fresh (env : Env) (e : LLMEngine) (hm : e.model = none)
    (hok : env.allOk) :
    e.initializeEngine env = (initializedOf e, fullInitTrace e, Except.ok ()) := by
  obtain ⟨h1, h2, h3, h4, h5⟩ := hok
  simp [LLMEngine.initializeEngine, hm, h1, h2, h3, h4, h5, initializedOf, fullInitTrace]

/-- The auto-initialization preamble is a no-op on a ready engine. -/
theorem ensureInit_ready (env : Env) (e : LLMEngine) (h1 : e.session.isSome = true)
    (h2 : e.context.isSome = true) :
    e.ensureInit env = (e, [], Except.ok ()) := by
  simp [LLMEngine.ensureInit, h1, h2]

/-- The auto-initialization preamble on a fresh engine with a successful
environment runs the full initialization sequence. -/
theorem ensureInit_fresh (env : Env) (e : LLMEngine) (hs : e.session = none)
    (hm : e.model = none) (hok : env.allOk) :
    e.ensureInit env = (initializedOf e, fullInitTrace e, Except.ok ()) := by
  simp [LLMEngine.ensureInit, hs, initialize_fresh env e hm hok]

/-- `generate` on a ready engine without a system prompt. -/
theorem generate_ready_nosys (env : Env) (e : LLMEngine) (options : GenerateOptions)
    (h1 : e.session.isSome = true) (h2 : e.context.isSome = true)
    (hs : options.systemPrompt = none) :
    e.generate env options =
      (e,
       Event.generateCall options ::
         Event.promptCall (e.preparePrompt options.prompt) (expectedParams e options) ::
           env.chunks.map Event.countChunk,
       Except.ok (expectedResult env e)) := by
  simp [LLMEngine.generate, ensureInit_ready env e h1 h2, h1, h2, hs,
    expectedParams, expectedResult]

/-- `generate` on a ready engine with a system prompt: the session history is
replaced by the single system entry before the prompt dispatch. -/
theorem generate_ready_sys (env : Env) (e : LLMEngine) (options : GenerateOptions)
    (sp : String) (h1 : e.session.isSome = true) (h2 : e.context.isSome = true)
    (hs : options.systemPrompt = some sp) :
    e.generate env options =
      ({ e with session := some [HistEntry.system sp] },
       Event.generateCall options ::
         Event.setChatHistoryCall [HistEntry.system sp] ::
           Event.promptCall (e.preparePrompt options.prompt) (expectedParams e options) ::
             env.chunks.map Event.countChunk,
       Except.ok (expectedResult env e)) := by
  simp [LLMEngine.generate, ensureInit_ready env e h1 h2, h1, h2, hs,
    expectedParams, expectedResult]

/-- `generateStreaming` on a ready engine without a system prompt. -/
theorem generateStreaming_ready_nosys (env : Env) (e : LLMEngine)
    (options : GenerateOptions) (h1 : e.session.isSome = true)
    (h2 : e.context.isSome = true) (hs : options.systemPrompt = none) :
    e.generateStreaming env options =
      (e,
       Event.promptCall (e.preparePrompt options.prompt)
           { expectedParams e options with stopOnAbortSignal := none } ::
         env.chunks.flatMap (fun c => [Event.countChunk c, Event.tokenCallback c]),
       Except.ok (expectedResult env e)) := by
  simp [LLMEngine.generateStreaming, ensureInit_ready env e h1 h2, h1, h2, hs,
    expectedParams, expectedResult]

/-- `generateStreaming` on a ready engine with a system prompt. -/
theorem generateStreaming_ready_sys (env : Env) (e : LLMEngine)
    (options : GenerateOptions) (sp : String) (h1 : e.session.isSome = true)
    (h2 : e.context.isSome = true) (hs : options.systemPrompt = some sp) :
    e.generateStreaming env options =
      ({ e with session := some [HistEntry.system sp] },
       Event.setChatHistoryCall [HistEntry.system sp] ::
         Event.promptCall (e.preparePrompt options.prompt)
             { expectedParams e options with stopOnAbortSignal := none } ::
           env.chunks.flatMap (fun c => [Event.countChunk c, Event.tokenCallback c]),
       Except.ok (expectedResult env e)) := by
  simp [LLMEngine.generateStreaming, ensureInit_ready env e h1 h2, h1, h2, hs,
    expectedParams, expectedResult]

/-- A fresh engine for the catalog model `"phi-4"` (no family tag). -/
def freshPhi : LLMEngine := LLMEngine.new { model := "phi-4" } none

/-- An environment in which every external step succeeds and the session's
prompt call produces the two chunks `"Hel"`, `"lo!"`. -/
def envOk : Env :=
  { getLlamaOk := true, resolveOk := true, loadOk := true, contextOk := true,
    sessionOk := true, response := "Hello!", chunks := ["Hel", "lo!"],
    durationSeconds := 2 }

/-- An environment in which `createContext` fails and every earlier external
step succeeds. -/
def envCtxFail : Env :=
  { getLlamaOk := true, resolveOk := true, loadOk := true, contextOk := false,
    sessionOk := true, response := "", chunks := [], durationSeconds := 1 }

set_option maxHeartbeats 2000000 in
/-- C1: evaluation of `initialize` at the failing input.  When context
creation fails on a fresh engine (all earlier steps succeeding), the
`llama` and `model` handles are left non-null with `session` and `context`
null, a second `initialize()` call returns immediately and successfully as a
no-op instead of re-attempting the sequence, and the engine is stuck:
`generate` then fails with "Failed to initialize engine" forever. -/
theorem initialize_partial_state_bug :
    (freshPhi.initializeEngine envCtxFail).2.2 = Except.error "createContext failed" ∧
    (freshPhi.initializeEngine envCtxFail).1.llama = some () ∧
    (freshPhi.initializeEngine envCtxFail).1.model = some () ∧
    (freshPhi.initializeEngine envCtxFail).1.context = none ∧
    (freshPhi.initializeEngine envCtxFail).1.session = none ∧
    (freshPhi.initializeEngine envCtxFail).1.initializeEngine envCtxFail =
      ((freshPhi.initializeEngine envCtxFail).1, [], Except.ok ()) ∧
    ((freshPhi.initializeEngine envCtxFail).1.generate envOk { prompt := "Hi" }).2.2 =
      Except.error "Failed to initialize engine" :=
  ⟨rfl, rfl, rfl, rfl, rfl, rfl, rfl⟩

set_option maxHeartbeats 1000000 in
/-- C8: an engine constructed with an alias (in any letter case) resolves to
the same canonical model identifier, and reports the same `getModelInfo()`
descriptor, as an engine constructed directly with the alias's target
canonical identifier. -/
theorem alias_same_descriptor (s target : String)
    (h : MODEL_ALIASES (strToLower s) = some target) :
    (LLMEngine.new { model := s } none).modelId =
      (LLMEngine.new { model := target } none).modelId ∧
    getModelInfoById (LLMEngine.new { model := s } none).modelId =
      getModelInfoById (LLMEngine.new { model := target } none).modelId := by
  have hres : resolveModelId s = target := by
    simp only [resolveModelId]
    rw [h]
  have htar : resolveModelId target = target := alias_target_resolves_self h
  have hsame : (LLMEngine.new { model := s } none).modelId =
      (LLMEngine.new { model := target } none).modelId := by
    show resolveModelId s = resolveModelId target
    rw [hres, htar]
  exact ⟨hsame, by rw [hsame]⟩

set_option maxHeartbeats 1000000 in
/-- Witness for C8 at the alias `"QWEN"` (upper case) with target
`"qwen3-8b"`. -/
theorem alias_same_descriptor_witness :
    MODEL_ALIASES (strToLower "QWEN") = some "qwen3-8b" ∧
    ((LLMEngine.new { model := "QWEN" } none).modelId =
       (LLMEngine.new { model := "qwen3-8b" } none).modelId ∧
     getModelInfoById (LLMEngine.new { model := "QWEN" } none).modelId =
       getModelInfoById (LLMEngine.new { model := "qwen3-8b" } none).modelId) :=
  ⟨by decide, alias_same_descriptor "QWEN" "qwen3-8b" (by decide)⟩

set_option maxHeartbeats 1000000 in
/-- C9 counterexample: the fallback-descriptor claim fails on inputs that
collide with JavaScript's `Object.prototype` property names.  For
`"Constructor"` (lowercased `"constructor"`), the constructor's
`modelKey in MODEL_ALIASES` test succeeds through the prototype chain and
stores the inherited `Object` constructor — not a string — in
`this.modelId`, so `getModelInfo()` returns a fallback whose `name` is that
object rather than the original input string.  For the exact-case input
`"toString"`, `this.modelId in MODELS` succeeds through the prototype chain
and `getModelInfo()` returns the inherited `toString` function instead of a
fallback descriptor at all. -/
theorem unknown_model_fallback_counterexample :
    jsGetModelInfo (jsResolveModelId "Constructor") =
      JSModelInfo.fallback
        { name := JSModelId.protoMember "constructor", repo := "custom",
          file := JSModelId.protoMember "constructor", parameters := "unknown",
          quantization := "unknown", contextLength := 4096, languages := ["en"],
          description := "Custom model" } ∧
    JSModelId.protoMember "constructor" ≠ JSModelId.str "Constructor" ∧
    jsGetModelInfo (jsResolveModelId "toString") =
      JSModelInfo.inheritedMember "toString" :=
  ⟨by decide, by decide, by decide⟩

/-- C9 (amended): for every ASCII model string that (after lowercasing)
matches neither an alias nor a catalog identifier and that is not an
inherited `Object.prototype` property name — neither before nor after
lowercasing, so that no `in` check can hit the prototype chain —
`getModelInfo()` never fails and returns the synthesized fallback descriptor
whose name is the original input string exactly, with repository `"custom"`,
context length 4096, languages `["en"]`, description `"Custom model"`.  (The
ASCII restriction is where `strToLower` coincides with JavaScript
`toLowerCase`; see `asciiOnly`.) -/
theorem unknown_model_fallback_amended (s : String)
    (hascii : asciiOnly s = true)
    (ha : MODEL_ALIASES (strToLower s) = none)
    (hc : MODELS (strToLower s) = none)
    (hp1 : objectPrototypeKeys.contains (strToLower s) = false)
    (hp2 : objectPrototypeKeys.contains s = false) :
    jsGetModelInfo (jsResolveModelId s) =
      JSModelInfo.fallback
        { name := JSModelId.str s, repo := "custom", file := JSModelId.str s,
          parameters := "unknown", quantization := "unknown", contextLength := 4096,
          languages := ["en"], description := "Custom model" } := by
  have hres : jsResolveModelId s = JSModelId.str s := by
    simp only [jsResolveModelId]
    rw [ha, hc, hp1]
    simp
  have hnone : MODELS s = none := by
    cases hM : MODELS s with
    | none => rfl
    | some i =>
      rw [ MODELS_key_lower hM] at hc
      rw [hc] at hM
      exact Option.noConfusion hM
  rw [hres]
  simp only [jsGetModelInfo, JSModelId.toPropertyKey]
  rw [hnone, hp2]
  simp

set_option maxHeartbeats 1000000 in
/-- Witness for the amended C9 at the custom path `"./models/MyModel.GGUF"`. -/
theorem unknown_model_fallback_amended_witness :
    asciiOnly "./models/MyModel.GGUF" = true ∧
    MODEL_ALIASES (strToLower "./models/MyModel.GGUF") = none ∧
    MODELS (strToLower "./models/MyModel.GGUF") = none ∧
    objectPrototypeKeys.contains (strToLower "./models/MyModel.GGUF") = false ∧
    objectPrototypeKeys.contains "./models/MyModel.GGUF" = false ∧
    jsGetModelInfo (jsResolveModelId "./models/MyModel.GGUF") =
      JSModelInfo.fallback
        { name := JSModelId.str "./models/MyModel.GGUF", repo := "custom",
          file := JSModelId.str "./models/MyModel.GGUF", parameters := "unknown",
          quantization := "unknown", contextLength := 4096, languages := ["en"],
          description := "Custom model" } :=
  ⟨by decide, by decide, by decide, by decide, by decide,
   unknown_model_fallback_amended "./models/MyModel.GGUF" (by decide) (by decide)
     (by decide) (by decide) (by decide)⟩

/-- `n` sequential `initialize()` calls: final engine state and the
concatenated trace of external calls. -/
def initN (env : Env) (e : LLMEngine) : Nat → LLMEngine × List Event
  | 0 => (e, [])
  | n + 1 =>
    match e.initializeEngine env with
    | (e1, tr1, _) =>
      match initN env e1 n with
      | (e2, tr2) => (e2, tr1 ++ tr2)

/-- Once the model handle is set, any number of further `initialize()` calls
leaves the state unchanged and performs no external call. -/
theorem initN_loaded (env : Env) (e : LLMEngine) (n : Nat)
    (h : e.model.isSome = true) : initN env e n = (e, []) := by
  induction n with
  | zero => rfl
  | succ n ih => simp [initN, initialize_noop env e h, ih]

/-- C6: `initialize()` is idempotent.  For every `n ≥ 1`, `n` sequential
calls on a fresh engine in a successful environment produce exactly the one
full acquisition/load/context/session sequence (each external call counted
exactly once), and the call right after the first successful one returns
immediately and successfully with no side effect. -/
theorem initialize_idempotent (env : Env) (e : LLMEngine) (n : Nat)
    (hm : e.model = none) (hok : env.allOk) (hn : 1 ≤ n) :
    initN env e n = (initializedOf e, fullInitTrace e) ∧
    (initN env e n).2.countP Event.isGetLlama = 1 ∧
    (initN env e n).2.countP Event.isLoadModel = 1 ∧
    (initN env e n).2.countP Event.isCreateContext = 1 ∧
    (initN env e n).2.countP Event.isCreateSession = 1 ∧
    (e.initializeEngine env).1.initializeEngine env = ((e.initializeEngine env).1, [], Except.ok ()) := by
  obtain ⟨m, rfl⟩ : ∃ m, n = m + 1 := ⟨n - 1, by omega⟩
  have hinit := initialize_fresh env e hm hok
  have heq : initN env e (m + 1) = (initializedOf e, fullInitTrace e) := by
    simp [initN, hinit, initN_loaded env (initializedOf e) m rfl]
  refine ⟨heq, ?_, ?_, ?_, ?_, ?_⟩ <;>
    first
      | (rw [heq]
         simp [fullInitTrace, List.countP_cons, Event.isGetLlama, Event.isLoadModel,
           Event.isCreateContext, Event.isCreateSession])
      | (rw [hinit]
         exact initialize_noop env (initializedOf e) rfl)

/-- Witness for C6: three sequential `initialize()` calls on a fresh
`"phi-4"` engine in a successful environment. -/
theorem initialize_idempotent_witness :
    freshPhi.model = none ∧ envOk.allOk ∧ 1 ≤ 3 ∧
    (initN envOk freshPhi 3 = (initializedOf freshPhi, fullInitTrace freshPhi) ∧
     (initN envOk freshPhi 3).2.countP Event.isGetLlama = 1 ∧
     (initN envOk freshPhi 3).2.countP Event.isLoadModel = 1 ∧
     (initN envOk freshPhi 3).2.countP Event.isCreateContext = 1 ∧
     (initN envOk freshPhi 3).2.countP Event.isCreateSession = 1 ∧
     (freshPhi.initializeEngine envOk).1.initializeEngine envOk =
       ((freshPhi.initializeEngine envOk).1, [], Except.ok ())) :=
  ⟨rfl, by decide, by decide,
   initialize_idempotent envOk freshPhi 3 rfl (by decide) (by decide)⟩

/-- A successful initialization sequence contains no `generate` entry. -/
theorem countP_fullInitTrace_gen (e : LLMEngine) :
    (fullInitTrace e).countP Event.isGenerateCall = 0 := by
  simp [fullInitTrace, List.countP_cons, Event.isGenerateCall]

/-- A successful initialization sequence contains no history replacement. -/
theorem countP_fullInitTrace_set (e : LLMEngine) :
    (fullInitTrace e).countP Event.isSetChatHistory = 0 := by
  simp [fullInitTrace, List.countP_cons, Event.isSetChatHistory]

/-- Chunk-counting events are not `generate` entries. -/
theorem countP_map_chunks_gen (l : List String) :
    (l.map Event.countChunk).countP Event.isGenerateCall = 0 := by
  induction l with
  | nil => rfl
  | cons a t ih => simp [List.countP_cons, Event.isGenerateCall, ih]

/-- Chunk-counting events are not history replacements. -/
theorem countP_map_chunks_set (l : List String) :
    (l.map Event.countChunk).countP Event.isSetChatHistory = 0 := by
  induction l with
  | nil => rfl
  | cons a t ih => simp [List.countP_cons, Event.isSetChatHistory, ih]

/-- C3: `chat()` with a message list whose last entry has role `"assistant"`
or `"system"` fails with the descriptive error `"Last message must be from
user"`, regardless of list length — for any engine that is ready or that
auto-initializes successfully. -/
theorem chat_rejects_non_user_last (env : Env) (e : LLMEngine)
    (messages : List ChatMessage) (options : ChatOptions) (m : ChatMessage)
    (hstate : (e.session.isSome = true ∧ e.context.isSome = true) ∨
      (e.session = none ∧ e.model = none ∧ env.allOk))
    (hlast : messages.getLast? = some m)
    (hrole : m.role = Role.assistant ∨ m.role = Role.system) :
    (e.chat env messages options).2.2 = Except.error "Last message must be from user" := by
  obtain ⟨e1, tr0, heq, h1, h2⟩ :
      ∃ e1 tr0, e.ensureInit env = (e1, tr0, Except.ok ()) ∧
        e1.session.isSome = true ∧ e1.context.isSome = true := by
    rcases hstate with ⟨h1, h2⟩ | ⟨hs, hm, hok⟩
    · exact ⟨e, [], ensureInit_ready env e h1 h2, h1, h2⟩
    · exact ⟨initializedOf e, fullInitTrace e, ensureInit_fresh env e hs hm hok, rfl, rfl⟩
  have hmap : (messages.map convertMessage).getLast? = some (convertMessage m) := by
    rw [List.getLast?_map, hlast]
    rfl
  have hcm : convertMessage m = HistEntry.system m.content ∨
      convertMessage m = HistEntry.model [m.content] := by
    rcases hrole with hr | hr <;> simp [convertMessage, hr]
  by_cases hlen : 0 < ((messages.map convertMessage).dropLast).length <;>
    rcases hcm with hcm | hcm <;>
      simp [LLMEngine.chat, heq, h1, h2, hmap, hcm, hlen]

/-- Witness for C3: a single system message on a ready engine. -/
theorem chat_rejects_non_user_last_witness :
    ((initializedOf freshPhi).session.isSome = true ∧
     (initializedOf freshPhi).context.isSome = true) ∧
    ([⟨Role.system, "be nice"⟩] : List ChatMessage).getLast? =
      some ⟨Role.system, "be nice"⟩ ∧
    ((initializedOf freshPhi).chat envOk [⟨Role.system, "be nice"⟩] {}).2.2 =
      Except.error "Last message must be from user" :=
  ⟨⟨rfl, rfl⟩, rfl,
   chat_rejects_non_user_last envOk (initializedOf freshPhi) [⟨Role.system, "be nice"⟩]
     {} ⟨Role.system, "be nice"⟩ (Or.inl ⟨rfl, rfl⟩) rfl (Or.inr rfl)⟩

/-- C10: `chat()` on a fresh engine with two or more messages whose last entry
is not a user message still auto-initializes and still replaces the session
history with the converted prefix before failing with the precondition error:
the failed call is not atomic. -/
theorem chat_bad_last_still_mutates (env : Env) (e : LLMEngine)
    (messages : List ChatMessage) (options : ChatOptions) (m : ChatMessage)
    (hs : e.session = none) (hm : e.model = none) (hok : env.allOk)
    (hlen : 2 ≤ messages.length) (hlast : messages.getLast? = some m)
    (hrole : m.role ≠ Role.user) :
    e.chat env messages options =
      ({ initializedOf e with session := some ((messages.map convertMessage).dropLast) },
       fullInitTrace e ++
         [Event.setChatHistoryCall ((messages.map convertMessage).dropLast)],
       Except.error "Last message must be from user") := by
  have heq := ensureInit_fresh env e hs hm hok
  have hmap : (messages.map convertMessage).getLast? = some (convertMessage m) := by
    rw [List.getLast?_map, hlast]
    rfl
  have hcm : convertMessage m = HistEntry.system m.content ∨
      convertMessage m = HistEntry.model [m.content] := by
    cases hr : m.role
    · simp [convertMessage, hr]
    · exact absurd hr hrole
    · simp [convertMessage, hr]
  have hpos : 0 < ((messages.map convertMessage).dropLast).length := by
    rw [List.length_dropLast, List.length_map]
    omega
  have hpos' : 1 < messages.length := by omega
  rcases hcm with hcm | hcm <;>
    simp [LLMEngine.chat, heq, hmap, hcm, hpos, hpos', initializedOf]

/-- Witness for C10: user message followed by an assistant message, on a
fresh `"phi-4"` engine in a successful environment. -/
theorem chat_bad_last_still_mutates_witness :
    freshPhi.session = none ∧ freshPhi.model = none ∧ envOk.allOk ∧
    2 ≤ ([⟨Role.user, "a"⟩, ⟨Role.assistant, "b"⟩] : List ChatMessage).length ∧
    freshPhi.chat envOk [⟨Role.user, "a"⟩, ⟨Role.assistant, "b"⟩] {} =
      ({ initializedOf freshPhi with
           session := some (([⟨Role.user, "a"⟩, ⟨Role.assistant, "b"⟩].map convertMessage).dropLast) },
       fullInitTrace freshPhi ++
         [Event.setChatHistoryCall
           (([⟨Role.user, "a"⟩, ⟨Role.assistant, "b"⟩].map convertMessage).dropLast)],
       Except.error "Last message must be from user") :=
  ⟨rfl, rfl, by decide, by decide,
   chat_bad_last_still_mutates envOk freshPhi [⟨Role.user, "a"⟩, ⟨Role.assistant, "b"⟩]
     {} ⟨Role.assistant, "b"⟩ rfl rfl (by decide) (by decide) rfl (by decide)⟩

/-- After a successful initialization both the session and context handles
are set, so the readiness re-check of the generation entry points passes. -/
theorem initializedOf_ready (e : LLMEngine) :
    ((initializedOf e).session.isSome && (initializedOf e).context.isSome) = true := rfl

/-- C7: `chat([{role: user, content: "Hi"}])` on a freshly constructed engine
in a successful environment enters `generate()` exactly once, with prompt
`"Hi"`, performs no session-history replacement at all (the converted prefix
is empty), and succeeds. -/
theorem chat_single_user_message (env : Env) (eo : EngineOptions) (options : ChatOptions)
    (hok : env.allOk) :
    ((LLMEngine.new eo none).chat env [⟨Role.user, "Hi"⟩] options).2.1.countP
        Event.isGenerateCall = 1 ∧
    (∀ o : GenerateOptions,
        Event.generateCall o ∈
          ((LLMEngine.new eo none).chat env [⟨Role.user, "Hi"⟩] options).2.1 →
        o.prompt = "Hi") ∧
    ((LLMEngine.new eo none).chat env [⟨Role.user, "Hi"⟩] options).2.1.countP
        Event.isSetChatHistory = 0 ∧
    (∃ r, ((LLMEngine.new eo none).chat env [⟨Role.user, "Hi"⟩] options).2.2 =
      Except.ok r) := by
  have heq := ensureInit_fresh env (LLMEngine.new eo none) rfl rfl hok
  have hg := generate_ready_nosys env (initializedOf (LLMEngine.new eo none))
    { prompt := "Hi", maxTokens := options.maxTokens, temperature := options.temperature,
      topP := options.topP, topK := options.topK, repeatPenalty := options.repeatPenalty,
      stop := options.stop } rfl rfl rfl
  have hchat : (LLMEngine.new eo none).chat env [⟨Role.user, "Hi"⟩] options =
      (initializedOf (LLMEngine.new eo none),
       fullInitTrace (LLMEngine.new eo none) ++
         (Event.generateCall
             { prompt := "Hi", maxTokens := options.maxTokens,
               temperature := options.temperature, topP := options.topP,
               topK := options.topK, repeatPenalty := options.repeatPenalty,
               stop := options.stop } ::
           Event.promptCall
               ((initializedOf (LLMEngine.new eo none)).preparePrompt "Hi")
               (expectedParams (initializedOf (LLMEngine.new eo none))
                 { prompt := "Hi", maxTokens := options.maxTokens,
                   temperature := options.temperature, topP := options.topP,
                   topK := options.topK, repeatPenalty := options.repeatPenalty,
                   stop := options.stop }) ::
             env.chunks.map Event.countChunk),
       Except.ok (expectedResult env (initializedOf (LLMEngine.new eo none)))) := by
    simp [LLMEngine.chat, heq, convertMessage, initializedOf_ready, hg]
  refine ⟨?_, ?_, ?_, ?_⟩
  · rw [hchat]
    simp [List.countP_append, countP_fullInitTrace_gen, List.countP_cons,
      Event.isGenerateCall, countP_map_chunks_gen]
  · intro o ho
    rw [hchat] at ho
    simp [fullInitTrace, List.mem_append, List.mem_cons, List.mem_map] at ho
    rw [ho]
  · rw [hchat]
    simp [List.countP_append, countP_fullInitTrace_set, List.countP_cons,
      Event.isSetChatHistory, countP_map_chunks_set]
  · exact ⟨_, by rw [hchat]⟩

/-- Witness for C7: a fresh `"phi-4"` engine in a successful environment. -/
theorem chat_single_user_message_witness :
    envOk.allOk ∧
    (((LLMEngine.new { model := "phi-4" } none).chat envOk [⟨Role.user, "Hi"⟩] {}).2.1.countP
        Event.isGenerateCall = 1 ∧
     (∀ o : GenerateOptions,
        Event.generateCall o ∈
          ((LLMEngine.new { model := "phi-4" } none).chat envOk [⟨Role.user, "Hi"⟩] {}).2.1 →
        o.prompt = "Hi") ∧
     ((LLMEngine.new { model := "phi-4" } none).chat envOk [⟨Role.user, "Hi"⟩] {}).2.1.countP
        Event.isSetChatHistory = 0 ∧
     (∃ r, ((LLMEngine.new { model := "phi-4" } none).chat envOk [⟨Role.user, "Hi"⟩] {}).2.2 =
        Except.ok r)) :=
  ⟨by decide, chat_single_user_message envOk { model := "phi-4" } {} (by decide)⟩

/-- C4: for an engine whose resolved model is qwen-tagged, the prompt
dispatched to the session by `generate()` and by `generateStreaming()` is the
suppression directive followed by the caller's original prompt when thinking
is disabled, and is exactly the caller's original prompt when thinking is
enabled. -/
theorem qwen_prompt_suppression (env : Env) (e : LLMEngine) (options : GenerateOptions)
    (hq : e.getThinkingMode = some ThinkingMode.qwen)
    (h1 : e.session.isSome = true) (h2 : e.context.isSome = true) :
    promptOf (e.generate env options).2.1 =
      some (if e.enableThinking then options.prompt
            else "/no_think " ++ options.prompt) ∧
    promptOf (e.generateStreaming env options).2.1 =
      some (if e.enableThinking then options.prompt
            else "/no_think " ++ options.prompt) := by
  have hprep : e.preparePrompt options.prompt =
      if e.enableThinking then options.prompt else "/no_think " ++ options.prompt := by
    cases hT : e.enableThinking <;> simp [LLMEngine.preparePrompt, hq, hT]
  cases hs : options.systemPrompt with
  | none =>
    rw [generate_ready_nosys env e options h1 h2 hs,
        generateStreaming_ready_nosys env e options h1 h2 hs]
    constructor <;> simp [promptOf, List.findSome?, hprep]
  | some sp =>
    rw [generate_ready_sys env e options sp h1 h2 hs,
        generateStreaming_ready_sys env e options sp h1 h2 hs]
    constructor <;> simp [promptOf, List.findSome?, hprep]

/-- Witness for C4: a ready engine for the alias `"qwen3"` (resolved to the
qwen-tagged `"qwen3-8b"`, thinking disabled by default). -/
theorem qwen_prompt_suppression_witness :
    (initializedOf (LLMEngine.new { model := "qwen3" } none)).getThinkingMode =
      some ThinkingMode.qwen ∧
    (promptOf
        ((initializedOf (LLMEngine.new { model := "qwen3" } none)).generate envOk
          { prompt := "Hi" }).2.1 =
      some (if (initializedOf (LLMEngine.new { model := "qwen3" } none)).enableThinking
            then "Hi" else "/no_think " ++ "Hi") ∧
     promptOf
        ((initializedOf (LLMEngine.new { model := "qwen3" } none)).generateStreaming envOk
          { prompt := "Hi" }).2.1 =
      some (if (initializedOf (LLMEngine.new { model := "qwen3" } none)).enableThinking
            then "Hi" else "/no_think " ++ "Hi")) :=
  ⟨by decide,
   qwen_prompt_suppression envOk (initializedOf (LLMEngine.new { model := "qwen3" } none))
     { prompt := "Hi" } (by decide) rfl rfl⟩

/-- C5: the dispatched sampling parameters take each request's explicit value
when present and otherwise the documented defaults (temperature 0.7, topP 0.9,
topK 40, repeatPenalty 1.1); the dispatched `maxTokens` is the explicit value
when present and otherwise 512 for a deepseek-tagged model and 256 for every
other model — for both `generate()` and `generateStreaming()`. -/
theorem sampling_parameter_defaults (env : Env) (e : LLMEngine) (options : GenerateOptions)
    (h1 : e.session.isSome = true) (h2 : e.context.isSome = true) :
    paramsOf (e.generate env options).2.1 = some
      { maxTokens := options.maxTokens.getD
          (if e.getThinkingMode = some ThinkingMode.deepseek then 512 else 256)
        temperature := options.temperature.getD (7/10)
        topP := options.topP.getD (9/10)
        topK := options.topK.getD 40
        repeatPenalty := options.repeatPenalty.getD (11/10)
        stopOnAbortSignal := some true } ∧
    paramsOf (e.generateStreaming env options).2.1 = some
      { maxTokens := options.maxTokens.getD
          (if e.getThinkingMode = some ThinkingMode.deepseek then 512 else 256)
        temperature := options.temperature.getD (7/10)
        topP := options.topP.getD (9/10)
        topK := options.topK.getD 40
        repeatPenalty := options.repeatPenalty.getD (11/10)
        stopOnAbortSignal := none } := by
  cases hs : options.systemPrompt with
  | none =>
    rw [generate_ready_nosys env e options h1 h2 hs,
        generateStreaming_ready_nosys env e options h1 h2 hs]
    constructor <;>
      simp [paramsOf, List.findSome?, expectedParams, LLMEngine.getDefaultMaxTokens]
  | some sp =>
    rw [generate_ready_sys env e options sp h1 h2 hs,
        generateStreaming_ready_sys env e options sp h1 h2 hs]
    constructor <;>
      simp [paramsOf, List.findSome?, expectedParams, LLMEngine.getDefaultMaxTokens]

/-- Witness for C5: a ready engine for the alias `"deepseek"` (resolved to the
deepseek-tagged `"deepseek-r1-7b"`) and a request with no explicit sampling
fields. -/
theorem sampling_parameter_defaults_witness :
    (initializedOf (LLMEngine.new { model := "deepseek" } none)).session.isSome = true ∧
    (paramsOf
        ((initializedOf (LLMEngine.new { model := "deepseek" } none)).generate envOk
          { prompt := "Hi" }).2.1 = some
      { maxTokens := (Option.none).getD
          (if (initializedOf (LLMEngine.new { model := "deepseek" } none)).getThinkingMode =
              some ThinkingMode.deepseek then 512 else 256)
        temperature := (Option.none).getD (7/10)
        topP := (Option.none).getD (9/10)
        topK := (Option.none).getD 40
        repeatPenalty := (Option.none).getD (11/10)
        stopOnAbortSignal := some true } ∧
     paramsOf
        ((initializedOf (LLMEngine.new { model := "deepseek" } none)).generateStreaming envOk
          { prompt := "Hi" }).2.1 = some
      { maxTokens := (Option.none).getD
          (if (initializedOf (LLMEngine.new { model := "deepseek" } none)).getThinkingMode =
              some ThinkingMode.deepseek then 512 else 256)
        temperature := (Option.none).getD (7/10)
        topP := (Option.none).getD (9/10)
        topK := (Option.none).getD 40
        repeatPenalty := (Option.none).getD (11/10)
        stopOnAbortSignal := none }) :=
  ⟨rfl,
   sampling_parameter_defaults envOk (initializedOf (LLMEngine.new { model := "deepseek" } none))
     { prompt := "Hi" } rfl rfl⟩

/-- The shape of a trace event with the sampling parameters and history
payloads erased (used to state ordering facts without comparing rationals). -/
inductive EventKind
  | getLlamaK
  | resolveK (uri : String)
  | loadK
  | contextK
  | sessionK
  | setHistK
  | promptK (prompt : String)
  | countK (chunk : String)
  | callbackK (chunk : String)
  | generateK
deriving DecidableEq, Repr

/-- Erase an event to its kind. -/
def Event.kind : Event → EventKind
  | Event.getLlamaCall => EventKind.getLlamaK
  | Event.resolveModelCall u => EventKind.resolveK u
  | Event.loadModelCall _ => EventKind.loadK
  | Event.createContextCall _ => EventKind.contextK
  | Event.createSessionCall => EventKind.sessionK
  | Event.setChatHistoryCall _ => EventKind.setHistK
  | Event.promptCall p _ => EventKind.promptK p
  | Event.countChunk c => EventKind.countK c
  | Event.tokenCallback c => EventKind.callbackK c
  | Event.generateCall _ => EventKind.generateK

/-- C2 counterexample: on a ready `"phi-4"` engine with chunks
`["Hel", "lo!"]`, the `generateStreaming` trace shows (a) each `onToken`
invocation happens *after* (not before) the chunk is added to the token count,
and (b) the options dispatched to the session's prompt call differ between the
two entry points: `generate()` passes `stopOnAbortSignal: true` while
`generateStreaming()` omits it — so the call is not identical to `generate()`
in the way the claim states. -/
theorem streaming_contract_counterexample :
    ((initializedOf freshPhi).generateStreaming envOk { prompt := "Hi" }).2.1.map Event.kind =
      [EventKind.promptK "Hi", EventKind.countK "Hel", EventKind.callbackK "Hel",
       EventKind.countK "lo!", EventKind.callbackK "lo!"] ∧
    ¬ ([EventKind.promptK "Hi", EventKind.countK "Hel", EventKind.callbackK "Hel",
        EventKind.countK "lo!", EventKind.callbackK "lo!"].indexOf (EventKind.callbackK "Hel") <
       [EventKind.promptK "Hi", EventKind.countK "Hel", EventKind.callbackK "Hel",
        EventKind.countK "lo!", EventKind.callbackK "lo!"].indexOf (EventKind.countK "Hel")) ∧
    (paramsOf ((initializedOf freshPhi).generate envOk { prompt := "Hi" }).2.1).map
        (fun q => q.stopOnAbortSignal) = some (some true) ∧
    (paramsOf ((initializedOf freshPhi).generateStreaming envOk { prompt := "Hi" }).2.1).map
        (fun q => q.stopOnAbortSignal) = some none :=
  ⟨rfl, by decide, rfl, rfl⟩

/-- C2 (amended): `generateStreaming(options, onToken)` behaves like
`generate(options)` — same final engine state, same prompt preparation, same
system-prompt history replacement, same result fields — with two deviations:
the dispatched prompt-call options coincide except that `generate()`
additionally passes `stopOnAbortSignal: true`, and per emitted chunk the
callback is invoked exactly once, synchronously, in generation order,
immediately *after* that chunk is added to the token count; no callback
invocation occurs outside the call's trace. -/
theorem streaming_matches_generate_amended (env : Env) (e : LLMEngine)
    (options : GenerateOptions) (h1 : e.session.isSome = true)
    (h2 : e.context.isSome = true) :
    ∃ e2 pre p q res,
      q.stopOnAbortSignal = some true ∧
      e.generate env options =
        (e2,
         Event.generateCall options ::
           (pre ++ Event.promptCall p q :: env.chunks.map Event.countChunk),
         Except.ok res) ∧
      e.generateStreaming env options =
        (e2,
         pre ++ Event.promptCall p { q with stopOnAbortSignal := none } ::
           env.chunks.flatMap (fun c => [Event.countChunk c, Event.tokenCallback c]),
         Except.ok res) := by
  cases hs : options.systemPrompt with
  | none =>
    refine ⟨e, [], e.preparePrompt options.prompt, expectedParams e options,
      expectedResult env e, rfl, ?_, ?_⟩
    · simpa using generate_ready_nosys env e options h1 h2 hs
    · simpa using generateStreaming_ready_nosys env e options h1 h2 hs
  | some sp =>
    refine ⟨{ e with session := some [HistEntry.system sp] },
      [Event.setChatHistoryCall [HistEntry.system sp]], e.preparePrompt options.prompt,
      expectedParams e options, expectedResult env e, rfl, ?_, ?_⟩
    · simpa using generate_ready_sys env e options sp h1 h2 hs
    · simpa using generateStreaming_ready_sys env e options sp h1 h2 hs

/-- Witness for the amended C2 on a ready `"phi-4"` engine. -/
theorem streaming_matches_generate_amended_witness :
    (initializedOf freshPhi).session.isSome = true ∧
    (initializedOf freshPhi).context.isSome = true ∧
    (∃ e2 pre p q res,
      q.stopOnAbortSignal = some true ∧
      (initializedOf freshPhi).generate envOk { prompt := "Hi" } =
        (e2,
         Event.generateCall { prompt := "Hi" } ::
           (pre ++ Event.promptCall p q :: envOk.chunks.map Event.countChunk),
         Except.ok res) ∧
      (initializedOf freshPhi).generateStreaming envOk { prompt := "Hi" } =
        (e2,
         pre ++ Event.promptCall p { q with stopOnAbortSignal := none } ::
           envOk.chunks.flatMap (fun c => [Event.countChunk c, Event.tokenCallback c]),
         Except.ok res)) :=
  ⟨rfl, rfl,
   streaming_matches_generate_amended envOk (initializedOf freshPhi) { prompt := "Hi" } rfl rfl⟩
